import Mathlib

/-
Shallow embedding of the msuozzo/gnosis repository (src/gnosis.py), a
date-indexed time-series layer over a spreadsheet.

Modelling conventions:
* Python `datetime.date` values are embedded as their proleptic Gregorian
  ordinals (`Int`, with ordinal 1 = 0001-01-01, exactly `date.toordinal`);
  `timedelta(days = i)` arithmetic is integer addition/subtraction.  The
  calendar structure `CalDate` is used at the string boundary
  (`_to_date_str` / `_parse_date`, i.e. strftime/strptime with the format
  `%a, %m/%d/%y`).
* Spreadsheet cell values are text (`String`), as delivered by the sheets
  collaborator.  The grid is a list of rows plus an explicit column count;
  absent cells read as the empty string.
* Python exceptions are the `Err` inductive.  The constructor names follow
  the error taxonomy of the specification; the comment on each constructor
  records which Python exception it stands for in the source.
* Fallible methods return `Except Err`; mutating methods additionally
  return the state, which on an exception is the state at the moment of
  the raise (Python exceptions do not roll anything back).
-/

set_option linter.unusedVariables false

/-- Python exceptions raised by gnosis.py, named after the error taxonomy
of the specification. -/
inductive Err where
  /-- ValueError raised by `datetime.strptime` for an unparseable label. -/
  | dateFormat
  /-- ValueError raised by `Gnosis._get_row` for a date outside the range. -/
  | dateOutOfRange
  /-- ValueError raised by `Gnosis._get_stat_col` for an unknown name. -/
  | unknownStatistic
  /-- ValueError raised when more than 1000 rows would be created. -/
  | rangeTooLarge
  /-- StopIteration escaping from `next()` on an exhausted generator. -/
  | emptySeries
  /-- TypeError (tuple item assignment, `reversed()` of a generator). -/
  | typeError
  deriving DecidableEq, Repr

deriving instance DecidableEq for Except

/-- A calendar date, the embedding of `datetime.date` at the string
boundary. -/
structure CalDate where
  year : Nat
  month : Nat
  day : Nat
  deriving DecidableEq, Repr

def isLeap (y : Nat) : Prop := y % 4 = 0 ∧ (y % 100 ≠ 0 ∨ y % 400 = 0)

instance (y : Nat) : Decidable (isLeap y) := by unfold isLeap; infer_instance

/-- Length of month `m` of year `y` (the validation `datetime.date`
performs on construction).  Only meaningful for `1 ≤ m ≤ 12`. -/
def monthLen (y m : Nat) : Nat :=
  if m = 2 then (if isLeap y then 29 else 28)
  else if m = 4 ∨ m = 6 ∨ m = 9 ∨ m = 11 then 30
  else 31

/-- The dates representable by `datetime.date` (year 1..9999). -/
def isValidDate (c : CalDate) : Prop :=
  1 ≤ c.year ∧ c.year ≤ 9999 ∧ 1 ≤ c.month ∧ c.month ≤ 12 ∧
    1 ≤ c.day ∧ c.day ≤ monthLen c.year c.month

instance (c : CalDate) : Decidable (isValidDate c) := by
  unfold isValidDate; infer_instance

/-- Days in the years strictly before year `y` (proleptic Gregorian). -/
def daysBeforeYear (y : Nat) : Nat :=
  365 * (y - 1) + (y - 1) / 4 - (y - 1) / 100 + (y - 1) / 400

/-- Days in the months of year `y` strictly before month `m`. -/
def daysBeforeMonth (y m : Nat) : Nat :=
  (List.range' 1 (m - 1)).foldl (fun a mm => a + monthLen y mm) 0

/-- `datetime.date.toordinal`: 0001-01-01 is ordinal 1. -/
def toOrdC (c : CalDate) : Nat :=
  daysBeforeYear c.year + daysBeforeMonth c.year c.month + c.day

/-- `datetime.date.fromordinal` (civil-from-days, era based). -/
def ofOrd (n : Int) : CalDate :=
  let z : Nat := (n + 305).toNat
  let era := z / 146097
  let doe := z % 146097
  let yoe := (doe - doe / 1460 + doe / 36524 - doe / 146096) / 365
  let y := yoe + era * 400
  let doy := doe - (365 * yoe + yoe / 4 - yoe / 100)
  let mp := (5 * doy + 2) / 153
  let d := doy - (153 * mp + 2) / 5 + 1
  let m := if mp < 10 then mp + 3 else mp - 9
  ⟨if m ≤ 2 then y + 1 else y, m, d⟩

/-- Weekday index of a date, 0 = Sunday ... 6 = Saturday (the index into
the strftime `%a` name table). -/
def dayOfWeekIdx (c : CalDate) : Nat := toOrdC c % 7

/-- ASCII digit character for `n < 10`. -/
def digitCh (n : Nat) : Char := Char.ofNat (48 + n)

def lowerChar (c : Char) : Char :=
  if 'A' ≤ c ∧ c ≤ 'Z' then Char.ofNat (c.toNat + 32) else c

def isDigitChar (c : Char) : Bool := decide ('0' ≤ c ∧ c ≤ '9')

def digitVal (c : Char) : Nat := c.toNat - 48

/-- strftime `%a` abbreviated weekday names, indexed 0 = Sunday. -/
def wdChars (k : Nat) : List Char :=
  match k with
  | 0 => ['S', 'u', 'n']
  | 1 => ['M', 'o', 'n']
  | 2 => ['T', 'u', 'e']
  | 3 => ['W', 'e', 'd']
  | 4 => ['T', 'h', 'u']
  | 5 => ['F', 'r', 'i']
  | _ => ['S', 'a', 't']

/-- The lowercased weekday names strptime `%a` accepts (it matches them
case-insensitively). -/
def wdLowerList : List (List Char) :=
  [['s', 'u', 'n'], ['m', 'o', 'n'], ['t', 'u', 'e'], ['w', 'e', 'd'],
   ['t', 'h', 'u'], ['f', 'r', 'i'], ['s', 'a', 't']]

/-- Zero-padded two-digit rendering (strftime `%m`, `%d`, `%y`). -/
def pad2 (n : Nat) : List Char := [digitCh (n / 10 % 10), digitCh (n % 10)]

/-- strftime with format `%a, %m/%d/%y` (the body of
`Gnosis._to_date_str`). -/
def formatChars (c : CalDate) : List Char :=
  wdChars (dayOfWeekIdx c) ++ [',', ' '] ++ pad2 c.month ++ ['/'] ++
    pad2 c.day ++ ['/'] ++ pad2 (c.year % 100)

/-- strptime `%a`: an abbreviated weekday name, case-insensitive. -/
def readWeekday : List Char → Option (List Char)
  | a :: b :: c :: rest =>
      if [lowerChar a, lowerChar b, lowerChar c] ∈ wdLowerList then some rest
      else none
  | _ => none

/-- A literal character of the format string. -/
def readLit (c : Char) : List Char → Option (List Char)
  | x :: rest => if x = c then some rest else none
  | _ => none

/-- strptime `%y`: exactly two digits. -/
def read2 : List Char → Option (Nat × List Char)
  | a :: b :: rest =>
      if isDigitChar a ∧ isDigitChar b then
        some (10 * digitVal a + digitVal b, rest)
      else none
  | _ => none

/-- strptime `%m`, as the regular expression `1[0-2]|0[1-9]|[1-9]`. -/
def readMonth : List Char → Option (Nat × List Char)
  | a :: b :: rest =>
      if a = '1' ∧ (b = '0' ∨ b = '1' ∨ b = '2') then
        some (10 + digitVal b, rest)
      else if a = '0' ∧ ('1' ≤ b ∧ b ≤ '9') then some (digitVal b, rest)
      else if '1' ≤ a ∧ a ≤ '9' then some (digitVal a, b :: rest)
      else none
  | [a] => if '1' ≤ a ∧ a ≤ '9' then some (digitVal a, []) else none
  | [] => none

/-- strptime `%d`, as the regular expression `3[01]|[12]\d|0[1-9]|[1-9]`. -/
def readDay : List Char → Option (Nat × List Char)
  | a :: b :: rest =>
      if a = '3' ∧ (b = '0' ∨ b = '1') then some (30 + digitVal b, rest)
      else if (a = '1' ∨ a = '2') ∧ isDigitChar b then
        some (10 * digitVal a + digitVal b, rest)
      else if a = '0' ∧ ('1' ≤ b ∧ b ≤ '9') then some (digitVal b, rest)
      else if '1' ≤ a ∧ a ≤ '9' then some (digitVal a, b :: rest)
      else none
  | [a] => if '1' ≤ a ∧ a ≤ '9' then some (digitVal a, []) else none
  | [] => none

/-- strptime with format `%a, %m/%d/%y` (the body of
`Gnosis._parse_date`): the whole string must be consumed, a two-digit year
`0..68` is 2000-based and `69..99` is 1900-based, and the resulting day is
validated against the month length as `datetime.date` does.  The weekday
name is parsed but, as in CPython, never checked against the date. -/
def parseChars (l : List Char) : Except Err CalDate :=
  match (do
    let l1 ← readWeekday l
    let l2 ← readLit ',' l1
    let l3 ← readLit ' ' l2
    let (m, l4) ← readMonth l3
    let l5 ← readLit '/' l4
    let (d, l6) ← readDay l5
    let l7 ← readLit '/' l6
    let (yy, l8) ← read2 l7
    if l8.isEmpty then some (m, d, yy) else none :
      Option (Nat × Nat × Nat)) with
  | none => .error .dateFormat
  | some (m, d, yy) =>
    let y := if yy ≤ 68 then 2000 + yy else 1900 + yy
    if 1 ≤ d ∧ d ≤ monthLen y m then .ok ⟨y, m, d⟩ else .error .dateFormat

namespace Gnosis

/-- `Gnosis._to_date_str`: format a date with `Gnosis.TIME_FMT`. -/
def to_date_str (c : CalDate) : String := ⟨formatChars c⟩

/-- `Gnosis._parse_date`: parse a Gnosis-formatted date string, raising
ValueError (here `Err.dateFormat`) on failure. -/
def parse_date (s : String) : Except Err CalDate := parseChars s.data

/-- `Gnosis._to_date_str` on an ordinal-represented date. -/
def to_date_str_ord (n : Int) : String := to_date_str (ofOrd n)

/-- `Gnosis._parse_date` returning the ordinal of the parsed date. -/
def parse_date_ord (s : String) : Except Err Int :=
  (parse_date s).map (fun c => (toOrdC c : Int))

end Gnosis

/-- A `gspread` worksheet cell: (row, col) coordinates and a text value. -/
structure Cell where
  row : Nat
  col : Nat
  value : String
  deriving DecidableEq, Repr

/-- The worksheet grid: 1-based rows and columns, text cells.  Cells not
physically stored read as the empty string. -/
structure Sheet where
  rows : List (List String)
  colCount : Nat
  deriving DecidableEq, Repr

namespace Sheet

def rowCount (sh : Sheet) : Nat := sh.rows.length

/-- Value of cell (`r`, `c`), 1-based; absent cells are empty text. -/
def cellVal (sh : Sheet) (r c : Nat) : String :=
  (sh.rows.getD (r - 1) []).getD (c - 1) ""

/-- `Worksheet.cell(row, col)`: returns a `Cell` object. -/
def cell (sh : Sheet) (r c : Nat) : Cell := ⟨r, c, sh.cellVal r c⟩

/-- Replace index `j` of a row, padding with empty cells if needed. -/
def setInRow (row : List String) (j : Nat) (v : String) : List String :=
  (row ++ List.replicate (j + 1 - row.length) "").set j v

/-- `Worksheet.update_cell(row, col, val)` for coordinates inside the
grid; writes outside the current bounds are rejected by the service and
are not modelled as growing the grid. -/
def updateCell (sh : Sheet) (r c : Nat) (v : String) : Sheet :=
  if 1 ≤ r ∧ r ≤ sh.rowCount ∧ 1 ≤ c ∧ c ≤ sh.colCount then
    { sh with rows := sh.rows.set (r - 1) (setInRow (sh.rows.getD (r - 1) []) (c - 1) v) }
  else sh

/-- `Worksheet.update_cells(cells)`: batched write. -/
def updateCells (sh : Sheet) (cells : List Cell) : Sheet :=
  cells.foldl (fun s cl => s.updateCell cl.row cl.col cl.value) sh

/-- `Worksheet.insert_row(values, index)`: 1-based insertion shifting
later rows down. -/
def insertRow (sh : Sheet) (idx : Nat) (vals : List String) : Sheet :=
  { sh with rows := sh.rows.take (idx - 1) ++ [vals] ++ sh.rows.drop (idx - 1) }

/-- `Worksheet.add_rows(n)`: append `n` empty rows. -/
def addRows (sh : Sheet) (n : Nat) : Sheet :=
  { sh with rows := sh.rows ++ List.replicate n [] }

/-- A single-column cell range `A r1 : A r2` (column 1), as fetched by
`Worksheet.range`. -/
def colRange (sh : Sheet) (r1 r2 : Nat) : List Cell :=
  (List.range' r1 (r2 + 1 - r1)).map (fun r => sh.cell r 1)

end Sheet

/-- The in-memory state of a `Gnosis` instance: the backing sheet, the
statistic-name-to-column mapping, and the cached date range (ordinals). -/
structure GState where
  sheet : Sheet
  stat_to_col : List (String × Nat)
  start_date : Int
  end_date : Int
  deriving DecidableEq, Repr

/-- Lookup in the association-list embedding of a Python dict: the most
recently added binding for a key wins. -/
def dictGet (l : List (String × Nat)) (k : String) : Option Nat :=
  l.reverse.lookup k

namespace Gnosis

/-- `Gnosis._row_values`: the values of row `r`, columns 1..col_count. -/
def row_values (sh : Sheet) (r : Nat) : List String :=
  (List.range' 1 sh.colCount).map (fun c => sh.cellVal r c)

/-- `Gnosis._col_values`: the values of column `c`, rows 1..row_count. -/
def col_values (sh : Sheet) (c : Nat) : List String :=
  (List.range' 1 sh.rowCount).map (fun r => sh.cellVal r c)

/-- `Gnosis._col_iter`: (row number, value) pairs, rows numbered from 1
(`enumerate(cell_values, start=1)`). -/
def col_iter (sh : Sheet) (c : Nat) : List (Nat × String) :=
  List.enumFrom 1 (col_values sh c)

/-- The statistic-name-to-column dict comprehension of `Gnosis.__init__`:
`{cell.value: DATA_START_COL + i for i, cell in enumerate(label_cells, start=1)}`
over the header cells of columns 2..col_count. -/
def stat_to_col_of_header (headerCells : List String) : List (String × Nat) :=
  headerCells.enum.map (fun p => (p.2, 2 + (p.1 + 1)))

/-- The header cells fetched by `Gnosis.__init__`: row 1, columns
2..col_count. -/
def header_cells (sh : Sheet) : List String :=
  (List.range' 2 (sh.colCount - 1)).map (fun c => sh.cellVal 1 c)

/-- The statistic index built at construction. -/
def init_stat_to_col (sh : Sheet) : List (String × Nat) :=
  stat_to_col_of_header (header_cells sh)

/-- `Gnosis._get_row`: row index for date `d` (ordinal), raising
ValueError when `d` lies outside the cached range. -/
def get_row (g : GState) (d : Int) : Except Err Nat :=
  let delta := d - g.start_date
  if d > g.end_date ∨ d < g.start_date then .error .dateOutOfRange
  else .ok (2 + delta.toNat)

/-- `Gnosis._get_approx_date`: the date of row `r` inferred from the
cached start date. -/
def get_approx_date (g : GState) (r : Nat) : Int :=
  g.start_date + ((r : Int) - 2)

/-- `Gnosis._get_or_create_row`: resolve a date to a row, extending the
sheet when the date is outside the cached range.  The prepend loop runs
over `xrange(1, rows_to_create)` inserting a labelled row at index 2 each
time; the append branch bulk-adds rows and batch-writes labels computed
from `xrange(1, rows_to_create)` offsets. -/
def get_or_create_row (g : GState) (d : Int) : Except Err Nat × GState :=
  match get_row g d with
  | .ok r => (.ok r, g)
  | .error _ =>
    let createBefore : Bool := d < g.start_date
    let closest : Int := if createBefore then g.start_date else g.end_date
    let rowsToCreate : Nat := (d - closest).natAbs
    if 1000 < rowsToCreate then (.error .rangeTooLarge, g)
    else if createBefore then
      let sheet1 := (List.range' 1 (rowsToCreate - 1)).foldl
        (fun sh i => sh.insertRow 2 [to_date_str_ord (closest - (i : Int))])
        g.sheet
      let g1 : GState := { g with sheet := sheet1, start_date := d }
      (get_row g1 d, g1)
    else
      let sheet1 := g.sheet.addRows rowsToCreate
      -- base_row is read back after add_rows and so already includes the
      -- added rows; the addressed range lies past the grid and its cells
      -- read as empty.
      let baseRow := sheet1.rowCount
      let newCells := sheet1.colRange (baseRow + 1) (baseRow + rowsToCreate)
      -- `enumerate` pairs the rowsToCreate - 1 offsets with the first
      -- cells of the range; the final cell keeps its fetched value.
      let assigned := newCells.enum.map (fun p =>
        if p.1 < rowsToCreate - 1 then
          { p.2 with value := to_date_str_ord (closest + (1 + (p.1 : Int))) }
        else p.2)
      let sheet2 := sheet1.updateCells assigned
      let g1 : GState := { g with sheet := sheet2, end_date := d }
      (get_row g1 d, g1)

/-- `Gnosis._get_stat_col`: column of a statistic, ValueError when the
name is absent (converted from the dict KeyError). -/
def get_stat_col (g : GState) (name : String) : Except Err Nat :=
  match dictGet g.stat_to_col name with
  | some c => .ok c
  | none => .error .unknownStatistic

/-- `Gnosis._get_coords`: (row, column) of a statistic on a date; the
row lookup runs first, as in the source tuple expression. -/
def get_coords (g : GState) (name : String) (d : Int) :
    Except Err (Nat × Nat) :=
  match get_row g d with
  | .error e => .error e
  | .ok r =>
    match get_stat_col g name with
    | .error e => .error e
    | .ok c => .ok (r, c)

/-- `Gnosis.update_stat`: write a value into the statistic cell. -/
def update_stat (g : GState) (name : String) (d : Int) (v : String) :
    Except Err Unit × GState :=
  match get_coords g name d with
  | .error e => (.error e, g)
  | .ok (r, c) => (.ok (), { g with sheet := g.sheet.updateCell r c v })

/-- `Gnosis.get_stat`: `return self._sheet.cell(date_row, stat_col)` -
the `Cell` object itself, not its value. -/
def get_stat (g : GState) (name : String) (d : Int) : Except Err Cell :=
  match get_coords g name d with
  | .error e => .error e
  | .ok (r, c) => .ok (g.sheet.cell r c)

/-- The generator body of `Gnosis._stat_iter`: walk the (row, value)
pairs of a statistic column; once a cell equal to `INITIALIZER` (the
text `START`) has been seen, later rows are yielded as
(approximate date, value). -/
def stat_scan (g : GState) (started : Bool) :
    List (Nat × String) → List (Int × String)
  | [] => []
  | (r, v) :: rest =>
    (if started then [(get_approx_date g r, v)] else []) ++
      stat_scan g (started || v == "START") rest

/-- `Gnosis._stat_iter`: the per-statistic (date, value) sequence. -/
def stat_iter (g : GState) (name : String) :
    Except Err (List (Int × String)) :=
  match get_stat_col g name with
  | .error e => .error e
  | .ok c => .ok (stat_scan g false (col_iter g.sheet c))

/-- `Gnosis.get_stat_series`: `list(self._stat_iter(stat_name))`. -/
def get_stat_series (g : GState) (name : String) :
    Except Err (List (Int × String)) :=
  stat_iter g name

/-- `Gnosis.get_stat_start`: `next(self._stat_iter(stat_name))`; on an
empty series the `next()` call raises StopIteration
(`Err.emptySeries`). -/
def get_stat_start (g : GState) (name : String) : Except Err Int :=
  match stat_iter g name with
  | .error e => .error e
  | .ok [] => .error .emptySeries
  | .ok (p :: _) => .ok p.1

/-- The run tuples of `Gnosis.fix_labels`:
`(start_row, start_date, length)`. -/
structure FixRun where
  row : Nat
  date : Option Int
  len : Nat
  deriving DecidableEq, Repr

/-- Python item assignment `t[i] = v` on a tuple: raises TypeError
(tuples are immutable).  `fix_labels` performs `current_run[0] = row_ind`,
`current_run[1] = current_date` and `current_run[2] += 1` on the tuple
`current_run`. -/
def tuple_setitem {α β : Type} (t : α) (i : Nat) (v : β) : Except Err α :=
  .error .typeError

/-- Python `reversed()` applied to a generator expression: raises
TypeError (the argument must be a sequence). -/
def py_reversed_of_generator (α : Type) : Except Err (List α) :=
  .error .typeError

/-- The label-scanning loop of `Gnosis.fix_labels`: rows with index at
most DATA_START_ROW (rows 1 and 2) are skipped; a parse failure folds the
current run into the best seen and resets; a parse success executes the
tuple item assignments, which raise.  The loop performs no final
comparison of the current run against the best after the scan. -/
def fix_scan : List (Nat × String) → FixRun → FixRun → Except Err FixRun
  | [], _cur, best => .ok best
  | (r, s) :: rest, cur, best =>
    if r ≤ 2 then fix_scan rest cur best
    else
      match parse_date_ord s with
      | .error _ =>
        fix_scan rest ⟨0, none, 0⟩ (if best.len < cur.len then cur else best)
      | .ok d => do
        let cur1 ←
          if cur.len = 0 then do
            let ca ← tuple_setitem cur 0 r
            tuple_setitem ca 1 d
          else pure cur
        let cur2 ← tuple_setitem cur1 2 (cur1.len + 1)
        fix_scan rest cur2 best

/-- `Gnosis.fix_labels`: scan the label column for the longest run of
parseable dates, then rewrite the labels before and after it.  After the
scan the source evaluates `reversed(timedelta(days=i) for i in ...)`,
which raises TypeError, so the correction writes are never reached. -/
def fix_labels (g : GState) : Except Err Unit × GState :=
  match fix_scan (col_iter g.sheet 1) ⟨0, none, 0⟩ ⟨0, none, 0⟩ with
  | .error e => (.error e, g)
  | .ok longest =>
    -- rows_to_correct = longest.row - DATA_START_ROW
    match py_reversed_of_generator Int with
    | .error e => (.error e, g)
    | .ok _offsets =>
      -- unreachable: reversed() of a generator always raises, so the
      -- two batched range updates of the source are never executed.
      (.error .typeError, g)

end Gnosis

/-! Concrete states used by witnesses and counterexamples. -/

/-- A two-row sheet: header row and one data row for 2017-06-14. -/
def shOne : Sheet := ⟨[["", "Steps"], ["Wed, 06/14/17", "7"]], 2⟩

/-- State over `shOne` with the statistic index as `__init__` builds it
(the off-by-one mapping). -/
def gOne : GState :=
  ⟨shOne, [("Steps", 3)], (toOrdC ⟨2017, 6, 14⟩ : Int), (toOrdC ⟨2017, 6, 14⟩ : Int)⟩

/-- State over `shOne` with `Steps` mapped to its true column 2. -/
def gOneFixed : GState :=
  ⟨shOne, [("Steps", 2)], (toOrdC ⟨2017, 6, 14⟩ : Int), (toOrdC ⟨2017, 6, 14⟩ : Int)⟩

/-- A header-only sheet with two statistic columns. -/
def shHeaders : Sheet := ⟨[["", "Steps", "Sleep"]], 3⟩

/-- The scenario of the specification: `Steps` initialized on 2017-06-01
with values on the two following days. -/
def gSeries : GState :=
  ⟨⟨[["", "Steps"], ["Thu, 06/01/17", "START"], ["Fri, 06/02/17", "120"],
     ["Sat, 06/03/17", "543"]], 2⟩,
   [("Steps", 2)], (toOrdC ⟨2017, 6, 1⟩ : Int), (toOrdC ⟨2017, 6, 3⟩ : Int)⟩

/-- A series whose initializer marker sits in the last row. -/
def gMarkerLast : GState :=
  ⟨⟨[["", "Steps"], ["Thu, 06/01/17", "120"], ["Fri, 06/02/17", "START"]], 2⟩,
   [("Steps", 2)], (toOrdC ⟨2017, 6, 1⟩ : Int), (toOrdC ⟨2017, 6, 2⟩ : Int)⟩

/-- A statistic column containing no initializer marker. -/
def gNoMarker : GState :=
  ⟨⟨[["", "Steps"], ["Thu, 06/01/17", "120"]], 2⟩,
   [("Steps", 2)], (toOrdC ⟨2017, 6, 1⟩ : Int), (toOrdC ⟨2017, 6, 1⟩ : Int)⟩

/-- A wide cached range (3002 rows, days 0..3000): dates deep inside the
range are more than 1000 days from both bounds. -/
def gWide : GState :=
  ⟨⟨[["", "Steps"]] ++ List.replicate 3001 [], 2⟩, [("Steps", 2)], 0, 3000⟩

/-! Helper lemmas. -/

/-- The scanning loop of `fix_labels` either raises TypeError or finishes
with some best run: every successfully parsed label triggers a tuple item
assignment, which raises. -/
theorem fix_scan_raises (l : List (Nat × String)) (cur best : Gnosis.FixRun) :
    Gnosis.fix_scan l cur best = .error .typeError ∨
      ∃ r, Gnosis.fix_scan l cur best = .ok r := by
  induction l generalizing cur best with
  | nil => exact .inr ⟨best, rfl⟩
  | cons p rest ih =>
    obtain ⟨r, s⟩ := p
    simp only [Gnosis.fix_scan]
    by_cases h1 : r ≤ 2
    · simpa [h1] using ih cur best
    · simp only [h1, if_false]
      cases hp : Gnosis.parse_date_ord s with
      | error e => exact ih _ _
      | ok d =>
        left
        by_cases hc : cur.len = 0 <;>
          simp only [hc, if_true, if_false, Gnosis.tuple_setitem] <;> rfl

/-- C1: the claim describes the documented intent of `fix_labels` (find
the longest run of valid labels and rewrite the surrounding labels), but
the code can never complete: a parseable label reaches the tuple item
assignment `current_run[0] = row_ind` (or `current_run[2] += 1`), and an
all-garbage column reaches `reversed(<generator>)`; both raise TypeError
before any cell is written.  Hence on every state `fix_labels` raises
TypeError and leaves the state unchanged. -/
theorem C1_fix_labels_always_raises (g : GState) :
    Gnosis.fix_labels g = (.error .typeError, g) := by
  unfold Gnosis.fix_labels
  rcases fix_scan_raises (Gnosis.col_iter g.sheet 1) ⟨0, none, 0⟩ ⟨0, none, 0⟩
    with h | ⟨r, h⟩ <;>
    simp [h, Gnosis.py_reversed_of_generator]

/-- C2: evaluating the prepend path at a concrete input.  With
`start_date` = 2017-06-14 and `d` = 2017-06-13, the claim demands one new
row labelled for `d`; the code inserts no row at all (the loop runs over
`xrange(1, rows_to_create)` and so stops one short), caches
`start_date = d`, and returns row 2 - whose label still parses to
2017-06-14, the day after `d`. -/
theorem C2_prepend_inserts_one_row_too_few :
    (toOrdC ⟨2017, 6, 13⟩ : Int) = (toOrdC ⟨2017, 6, 14⟩ : Int) - 1 ∧
    (Gnosis.get_or_create_row gOne (toOrdC ⟨2017, 6, 13⟩)).1 = .ok 2 ∧
    ((Gnosis.get_or_create_row gOne (toOrdC ⟨2017, 6, 13⟩)).2).sheet = gOne.sheet ∧
    ((Gnosis.get_or_create_row gOne (toOrdC ⟨2017, 6, 13⟩)).2).start_date
      = (toOrdC ⟨2017, 6, 13⟩ : Int) ∧
    Gnosis.parse_date_ord (gOne.sheet.cellVal 2 1) = .ok (toOrdC ⟨2017, 6, 14⟩) := by
  decide

/-- C3: evaluating the statistic-index construction.  The header cell
read from column 2 (`Steps`) is mapped to column 3 and the one from
column 3 (`Sleep`) to column 4: `enumerate(label_cells, start=1)` added
to `DATA_START_COL` is off by one against the claimed
`column = 2 + offset`. -/
theorem C3_stat_index_off_by_one :
    Gnosis.header_cells shHeaders = ["Steps", "Sleep"] ∧
    shHeaders.cellVal 1 2 = "Steps" ∧
    Gnosis.init_stat_to_col shHeaders = [("Steps", 3), ("Sleep", 4)] ∧
    dictGet (Gnosis.init_stat_to_col shHeaders) "Steps" = some 3 := by
  decide

/-- C4 counterexample: the claim quantifies over every date whose
distance from the nearer of the two cached bounds exceeds 1000 days, but
a date deep inside a wide range satisfies that condition and
`get_or_create_row` simply returns its row instead of failing. -/
theorem C4_in_range_far_date_succeeds :
    gWide.start_date + 1000 < 1500 ∧ 1500 + 1000 < gWide.end_date ∧
    gWide.end_date = gWide.start_date + (gWide.sheet.rowCount : Int) - 2 ∧
    Gnosis.get_or_create_row gWide 1500 = (.ok 1502, gWide) := by
  constructor
  · decide
  constructor
  · decide
  constructor
  · show (3000 : Int) = 0 + (gWide.sheet.rowCount : Int) - 2
    norm_num [gWide, Sheet.rowCount]
  · rfl

/-- C4 (amended to out-of-range dates): for a date outside the cached
range whose distance from the nearer bound exceeds 1000 days,
`get_or_create_row` raises the range-too-large error before touching the
sheet or the cached bounds. -/
theorem C4_range_cap_no_mutation (g : GState) (d : Int)
    (hwf : g.start_date ≤ g.end_date)
    (h : (d < g.start_date ∧ 1000 < g.start_date - d) ∨
         (g.end_date < d ∧ 1000 < d - g.end_date)) :
    Gnosis.get_or_create_row g d = (.error .rangeTooLarge, g) := by
  have h1 : Gnosis.get_row g d = .error .dateOutOfRange := by
    unfold Gnosis.get_row
    rw [if_pos (by omega)]
  unfold Gnosis.get_or_create_row
  rw [h1]
  rcases h with ⟨hlt, hdist⟩ | ⟨hgt, hdist⟩
  · simp only [decide_eq_true hlt, if_true]
    rw [if_pos (by omega)]
  · have : ¬ d < g.start_date := by omega
    simp only [decide_eq_false this, if_false]
    rw [if_pos (by omega)]

/-- C4 witness: a concrete out-of-range date 1001 days before the start
fails with the range error and mutates nothing. -/
theorem C4_witness :
    Gnosis.get_or_create_row gOne ((toOrdC ⟨2017, 6, 14⟩ : Int) - 1001)
      = (.error .rangeTooLarge, gOne) :=
  C4_range_cap_no_mutation gOne _ (by decide) (Or.inl (by constructor <;> decide))

/-- C5: for dates inside the cached range, `_get_row` returns
`2 + (d - start_date)` and `_get_approx_date` inverts it exactly; for
dates outside the range it raises the date-not-in-range error. -/
theorem C5_row_date_bijection (g : GState) (d : Int) :
    (g.start_date ≤ d ∧ d ≤ g.end_date →
      Gnosis.get_row g d = .ok (2 + (d - g.start_date).toNat) ∧
      Gnosis.get_approx_date g (2 + (d - g.start_date).toNat) = d) ∧
    (d < g.start_date ∨ g.end_date < d →
      Gnosis.get_row g d = .error .dateOutOfRange) := by
  constructor
  · rintro ⟨h1, h2⟩
    constructor
    · unfold Gnosis.get_row
      rw [if_neg (by omega)]
    · unfold Gnosis.get_approx_date
      omega
  · intro h
    unfold Gnosis.get_row
    rw [if_pos (by omega)]

/-- C5 witness: the bijection evaluated at the concrete in-range date
2017-06-14. -/
theorem C5_witness :
    Gnosis.get_row gOne (toOrdC ⟨2017, 6, 14⟩)
      = .ok (2 + ((toOrdC ⟨2017, 6, 14⟩ : Int) - gOne.start_date).toNat) ∧
    Gnosis.get_approx_date gOne
        (2 + ((toOrdC ⟨2017, 6, 14⟩ : Int) - gOne.start_date).toNat)
      = (toOrdC ⟨2017, 6, 14⟩ : Int) :=
  (C5_row_date_bijection gOne _).1 ⟨by decide, by decide⟩

theorem enumFrom_append_eq (l1 l2 : List String) (n : Nat) :
    List.enumFrom n (l1 ++ l2) =
      List.enumFrom n l1 ++ List.enumFrom (n + l1.length) l2 := by
  induction l1 generalizing n with
  | nil => simp
  | cons a t ih =>
    simp only [List.cons_append, List.enumFrom, List.length_cons]
    show (n, a) :: List.enumFrom (n + 1) (t ++ l2)
        = (n, a) :: (List.enumFrom (n + 1) t ++ List.enumFrom (n + (t.length + 1)) l2)
    rw [ih (n + 1), (by omega : n + 1 + t.length = n + (t.length + 1))]

theorem snd_mem_of_mem_enumFrom {α : Type} {l : List α} {n : Nat}
    {p : Nat × α} (h : p ∈ List.enumFrom n l) : p.2 ∈ l := by
  induction l generalizing n with
  | nil => simp [List.enumFrom] at h
  | cons a t ih =>
    simp only [List.enumFrom, List.mem_cons] at h
    rcases h with h | h
    · subst h; exact List.mem_cons_self _ _
    · exact List.mem_cons_of_mem _ (ih h)

/-- After the initializer has been seen, `_stat_iter` yields every later
row as (approximate date, value). -/
theorem stat_scan_true (g : GState) (l : List (Nat × String)) :
    Gnosis.stat_scan g true l =
      l.map (fun p => (Gnosis.get_approx_date g p.1, p.2)) := by
  induction l with
  | nil => rfl
  | cons p t ih =>
    obtain ⟨r, v⟩ := p
    simp [Gnosis.stat_scan, ih]

/-- Without any initializer cell, `_stat_iter` yields nothing. -/
theorem stat_scan_false_of_no_marker (g : GState)
    (l : List (Nat × String)) (h : ∀ p ∈ l, p.2 ≠ "START") :
    Gnosis.stat_scan g false l = [] := by
  induction l with
  | nil => rfl
  | cons p t ih =>
    obtain ⟨r, v⟩ := p
    have hv : v ≠ "START" := h (r, v) (List.mem_cons_self _ _)
    simp only [Gnosis.stat_scan, Bool.false_or, List.nil_append, if_neg Bool.false_ne_true]
    rw [show (v == "START") = false from beq_eq_false_iff_ne.2 hv]
    exact ih (fun p hp => h p (List.mem_cons_of_mem _ hp))

/-- Splitting `_stat_iter` at the first initializer cell. -/
theorem stat_scan_false_split (g : GState) (l1 : List (Nat × String))
    (p0 : Nat × String) (l2 : List (Nat × String))
    (h : ∀ p ∈ l1, p.2 ≠ "START") (hm : p0.2 = "START") :
    Gnosis.stat_scan g false (l1 ++ p0 :: l2) =
      Gnosis.stat_scan g true l2 := by
  induction l1 with
  | nil =>
    obtain ⟨r0, v0⟩ := p0
    simp only at hm
    simp [Gnosis.stat_scan, hm]
  | cons p t ih =>
    obtain ⟨r, v⟩ := p
    have hv : v ≠ "START" := h (r, v) (List.mem_cons_self _ _)
    simp only [List.cons_append, Gnosis.stat_scan, Bool.false_or,
      if_neg Bool.false_ne_true, List.nil_append]
    rw [show (v == "START") = false from beq_eq_false_iff_ne.2 hv]
    exact ih (fun q hq => h q (List.mem_cons_of_mem _ hq))

theorem map_approx_enumFrom (g : GState) (k : Nat) (l : List String) :
    ((List.enumFrom k l).map (fun p => Gnosis.get_approx_date g p.1)) =
      (List.range l.length).map (fun j => Gnosis.get_approx_date g (k + j)) := by
  induction l generalizing k with
  | nil => rfl
  | cons a t ih =>
    simp only [List.enumFrom, List.map_cons, List.length_cons,
      List.range_succ_eq_map, List.map_map]
    congr 1
    rw [ih (k + 1)]
    apply List.map_congr_left
    intro j hj
    simp only [Function.comp_apply]
    congr 1
    omega

/-- C6: with the statistic present in the index and its column containing
the initializer marker (first at 0-based offset `l1.length`, i.e. row
`l1.length + 1`), the series is exactly one entry per row after the
marker row, its dates the consecutive days from the day of the row after
the marker through the date of the last row, which is `end_date` under
the construction invariant. -/
theorem C6_series_consecutive_days (g : GState) (name : String) (c : Nat)
    (l1 l2 : List String)
    (hc : dictGet g.stat_to_col name = some c)
    (hsplit : Gnosis.col_values g.sheet c = l1 ++ "START" :: l2)
    (hfirst : ∀ v ∈ l1, v ≠ "START")
    (hwf : g.end_date = g.start_date + (g.sheet.rowCount : Int) - 2) :
    ∃ l, Gnosis.get_stat_series g name = .ok l ∧
      l.map Prod.fst =
        (List.range l2.length).map
          (fun j : Nat => g.start_date + (l1.length : Int) + (j : Int)) ∧
      (l2 ≠ [] →
        (l.map Prod.fst).head? = some (g.start_date + (l1.length : Int)) ∧
        g.start_date + (l1.length : Int) + ((l2.length : Int) - 1)
          = g.end_date) := by
  have hcol : Gnosis.get_stat_col g name = .ok c := by
    unfold Gnosis.get_stat_col
    rw [hc]
  have hlen : (Gnosis.col_values g.sheet c).length = g.sheet.rowCount := by
    unfold Gnosis.col_values
    simp
  refine ⟨Gnosis.stat_scan g false (Gnosis.col_iter g.sheet c), ?_, ?_, ?_⟩
  · unfold Gnosis.get_stat_series Gnosis.stat_iter
    rw [hcol]
  · unfold Gnosis.col_iter
    rw [hsplit, enumFrom_append_eq]
    rw [show List.enumFrom (1 + l1.length) ("START" :: l2)
          = (1 + l1.length, "START") :: List.enumFrom (1 + l1.length + 1) l2
        from rfl]
    rw [stat_scan_false_split g _ _ _
        (fun p hp => hfirst p.2 (snd_mem_of_mem_enumFrom hp)) rfl]
    rw [stat_scan_true]
    rw [List.map_map]
    rw [show ((fun p => Prod.fst p) ∘
          fun p : Nat × String => (Gnosis.get_approx_date g p.1, p.2))
        = fun p : Nat × String => Gnosis.get_approx_date g p.1 from rfl]
    rw [map_approx_enumFrom]
    apply List.map_congr_left
    intro j hj
    unfold Gnosis.get_approx_date
    push_cast
    ring
  · intro hne
    have hlen2 : (l1 ++ "START" :: l2).length = g.sheet.rowCount := by
      rw [← hsplit]; exact hlen
    constructor
    · have : Gnosis.get_stat_series g name
          = .ok (Gnosis.stat_scan g false (Gnosis.col_iter g.sheet c)) := by
        unfold Gnosis.get_stat_series Gnosis.stat_iter
        rw [hcol]
      -- reuse the map-range identity just proved
      have hmap : (Gnosis.stat_scan g false (Gnosis.col_iter g.sheet c)).map
            Prod.fst =
          (List.range l2.length).map
            (fun j : Nat => g.start_date + (l1.length : Int) + (j : Int)) := by
        unfold Gnosis.col_iter
        rw [hsplit, enumFrom_append_eq]
        rw [show List.enumFrom (1 + l1.length) ("START" :: l2)
              = (1 + l1.length, "START") :: List.enumFrom (1 + l1.length + 1) l2
            from rfl]
        rw [stat_scan_false_split g _ _ _
            (fun p hp => hfirst p.2 (snd_mem_of_mem_enumFrom hp)) rfl]
        rw [stat_scan_true]
        rw [List.map_map]
        rw [show ((fun p => Prod.fst p) ∘
              fun p : Nat × String => (Gnosis.get_approx_date g p.1, p.2))
            = fun p : Nat × String => Gnosis.get_approx_date g p.1 from rfl]
        rw [map_approx_enumFrom]
        apply List.map_congr_left
        intro j hj
        unfold Gnosis.get_approx_date
        push_cast
        ring
      rw [hmap]
      obtain ⟨a, t, rfl⟩ := List.exists_cons_of_ne_nil hne
      simp [List.range_succ_eq_map]
    · simp only [List.length_append, List.length_cons] at hlen2
      have h2 : l2.length ≠ 0 := fun h0 => hne (List.eq_nil_of_length_eq_zero h0)
      omega

/-- C10: when the statistic is present in the index but its column holds
no initializer marker, `get_stat_series` succeeds with the empty list -
it does not raise. -/
theorem C10_series_empty_without_marker (g : GState) (name : String)
    (c : Nat) (hc : dictGet g.stat_to_col name = some c)
    (hno : ∀ v ∈ Gnosis.col_values g.sheet c, v ≠ "START") :
    Gnosis.get_stat_series g name = .ok [] := by
  have hcol : Gnosis.get_stat_col g name = .ok c := by
    unfold Gnosis.get_stat_col
    rw [hc]
  unfold Gnosis.get_stat_series Gnosis.stat_iter Gnosis.col_iter
  rw [hcol]
  show Except.ok (Gnosis.stat_scan g false
      (List.enumFrom 1 (Gnosis.col_values g.sheet c))) = Except.ok []
  rw [stat_scan_false_of_no_marker g _
    (fun p hp => hno p.2 (snd_mem_of_mem_enumFrom hp))]

/-- C10 witness: a concrete markerless column yields the empty series. -/
theorem C10_witness : Gnosis.get_stat_series gNoMarker "Steps" = .ok [] :=
  C10_series_empty_without_marker gNoMarker "Steps" 2 (by decide) (by decide)

/-- C6 witness: the specification scenario - `START` on 2017-06-01,
values on the two following days - applied through the theorem. -/
theorem C6_witness :
    ∃ l, Gnosis.get_stat_series gSeries "Steps" = .ok l ∧
      l.map Prod.fst =
        (List.range ([(("120" : String)), "543"].length)).map
          (fun j : Nat => gSeries.start_date + ((["Steps"].length : Nat) : Int) + (j : Int)) ∧
      ((["120", "543"] : List String) ≠ [] →
        (l.map Prod.fst).head? = some (gSeries.start_date + ((["Steps"].length : Nat) : Int)) ∧
        gSeries.start_date + ((["Steps"].length : Nat) : Int) +
            ((((["120", "543"] : List String).length : Nat) : Int) - 1)
          = gSeries.end_date) :=
  C6_series_consecutive_days gSeries "Steps" 2 ["Steps"] ["120", "543"]
    (by decide) (by decide) (by decide) (by decide)

/-- C9 counterexample: the marker is present but sits in the last row, so
the series is empty and `get_stat_start` raises (StopIteration from
`next()`, the empty-series error) instead of returning a first-entry
date. -/
theorem C9_marker_present_but_start_raises :
    "START" ∈ Gnosis.col_values gMarkerLast.sheet 2 ∧
    Gnosis.get_stat_series gMarkerLast "Steps" = .ok [] ∧
    Gnosis.get_stat_start gMarkerLast "Steps" = .error .emptySeries := by
  decide

/-- C9 (amended): `get_stat_start` mirrors `get_stat_series`: it raises
the empty-series error whenever the series is empty - in particular when
no initializer marker exists, but also when the marker sits in the last
row - and returns the date of the first series entry whenever the series
is nonempty. -/
theorem C9_stat_start_of_series (g : GState) (name : String) :
    (Gnosis.get_stat_series g name = .ok [] →
      Gnosis.get_stat_start g name = .error .emptySeries) ∧
    (∀ p l, Gnosis.get_stat_series g name = .ok (p :: l) →
      Gnosis.get_stat_start g name = .ok p.1) ∧
    (∀ e, Gnosis.get_stat_series g name = .error e →
      Gnosis.get_stat_start g name = .error e) := by
  unfold Gnosis.get_stat_series Gnosis.get_stat_start
  refine ⟨fun h => ?_, fun p l h => ?_, fun e h => ?_⟩ <;> rw [h]

/-- C9 witness: for the specification scenario the start date is the
first series entry, 2017-06-02. -/
theorem C9_witness :
    Gnosis.get_stat_start gSeries "Steps" = .ok (toOrdC ⟨2017, 6, 2⟩) :=
  (C9_stat_start_of_series gSeries "Steps").2.1
    ((toOrdC ⟨2017, 6, 2⟩ : Int), "120")
    [((toOrdC ⟨2017, 6, 3⟩ : Int), "543")] (by decide)

/-- C7: evaluating the update/read pair at a concrete input.
`update_stat` writes the value, but `get_stat` returns
`self._sheet.cell(date_row, stat_col)` - the `Cell` object - rather than
its value (contrast `_get_date`, which reads `.value`); the written text
only appears as the object's `value` field. -/
theorem C7_get_stat_returns_cell_object :
    Gnosis.get_stat ((Gnosis.update_stat gOneFixed "Steps"
        (toOrdC ⟨2017, 6, 14⟩) "42").2) "Steps" (toOrdC ⟨2017, 6, 14⟩)
      = .ok ⟨2, 2, "42"⟩ ∧
    (Gnosis.get_stat ((Gnosis.update_stat gOneFixed "Steps"
        (toOrdC ⟨2017, 6, 14⟩) "42").2) "Steps" (toOrdC ⟨2017, 6, 14⟩)).map
        Cell.value
      = .ok "42" := by
  decide

/-- C8 counterexample: the two-digit `%y` year cannot round-trip all
valid dates.  2070-01-01 formats to `Wed, 01/01/70`, which strptime
resolves to 1970-01-01. -/
theorem C8_century_lost_at_2070 :
    isValidDate ⟨2070, 1, 1⟩ ∧
    Gnosis.to_date_str ⟨2070, 1, 1⟩ = "Wed, 01/01/70" ∧
    Gnosis.parse_date (Gnosis.to_date_str ⟨2070, 1, 1⟩) = .ok ⟨1970, 1, 1⟩ ∧
    Gnosis.parse_date (Gnosis.to_date_str ⟨2070, 1, 1⟩) ≠ .ok ⟨2070, 1, 1⟩ := by
  decide

theorem readWeekday_wd (k : Nat) (rest : List Char) :
    readWeekday (wdChars k ++ rest) = some rest := by
  rcases k with _ | _ | _ | _ | _ | _ | _ | k <;> rfl

theorem readLit_self (ch : Char) (rest : List Char) :
    readLit ch (ch :: rest) = some rest := by
  simp [readLit]

theorem readMonth_pad2 (m : Nat) (h1 : 1 ≤ m) (h2 : m ≤ 12)
    (rest : List Char) : readMonth (pad2 m ++ rest) = some (m, rest) := by
  interval_cases m <;> rfl

theorem readDay_pad2 (d : Nat) (h1 : 1 ≤ d) (h2 : d ≤ 31)
    (rest : List Char) : readDay (pad2 d ++ rest) = some (d, rest) := by
  interval_cases d <;> rfl

theorem read2_pad2 (yy : Nat) (h : yy < 100) (rest : List Char) :
    read2 (pad2 yy ++ rest) = some (yy, rest) := by
  interval_cases yy <;> rfl

theorem monthLen_le_31 (y m : Nat) : monthLen y m ≤ 31 := by
  unfold monthLen
  split_ifs <;> omega

/-- C8 (amended to the century window): formatting and re-parsing is the
identity exactly on the valid dates whose year lies in 1969..2068, the
window the two-digit `%y` pivot (`00..68` maps to 2000-based years,
`69..99` to 1900-based ones) can represent. -/
theorem C8_roundtrip_two_digit_window (c : CalDate) (hv : isValidDate c)
    (h1 : 1969 ≤ c.year) (h2 : c.year ≤ 2068) :
    Gnosis.parse_date (Gnosis.to_date_str c) = .ok c := by
  obtain ⟨hy1, hy2, hm1, hm2, hd1, hd2⟩ := hv
  show parseChars (formatChars c) = .ok c
  have hd31 : c.day ≤ 31 := hd2.trans (monthLen_le_31 _ _)
  have hyy : c.year % 100 < 100 := Nat.mod_lt _ (by norm_num)
  have h3 : read2 (pad2 (c.year % 100)) = some (c.year % 100, []) := by
    have := read2_pad2 (c.year % 100) hyy []
    simpa using this
  unfold formatChars parseChars
  simp only [List.append_assoc, List.cons_append, List.nil_append,
    readWeekday_wd, readLit_self, readMonth_pad2 c.month hm1 hm2,
    readDay_pad2 c.day hd1 hd31, h3,
    Option.bind_eq_bind', Option.some_bind, Option.none_bind,
    List.isEmpty_nil, if_true]
  have hy : (if c.year % 100 ≤ 68 then 2000 + c.year % 100
      else 1900 + c.year % 100) = c.year := by
    split_ifs <;> omega
  rw [hy, if_pos ⟨hd1, hd2⟩]

/-- C8 witness: the round trip evaluated at 2017-06-14. -/
theorem C8_witness :
    Gnosis.parse_date (Gnosis.to_date_str ⟨2017, 6, 14⟩)
      = .ok ⟨2017, 6, 14⟩ :=
  C8_roundtrip_two_digit_window ⟨2017, 6, 14⟩ (by decide) (by decide)
    (by decide)

/-- C1 witness: the repair call on the concrete two-row sheet raises
TypeError and changes nothing. -/
theorem C1_witness : Gnosis.fix_labels gOne = (.error .typeError, gOne) :=
  C1_fix_labels_always_raises gOne
